import Mathlib

/-!
Verification development for the dynamongo query/mutation layer.

The Python sources are embedded shallowly: pure functions become Lean
functions, the process-wide placeholder counter and the shared default
lists of `BatchResult` become explicitly threaded state, and fallible
code returns `Except PyErr`.  Python attribute lookup on the embedded
objects is modelled through explicit instance-attribute dictionaries, so
that an access to an attribute the constructor never assigned evaluates
to an `AttributeError`, exactly as in CPython.
-/

namespace Dynamongo

/-- The exception classes that can surface from the embedded code paths:
`ExpressionError`, `ValidationError` (exceptions.py), the internal
`FindOnMultipleKeysError` (a strict subclass of `AttributeError`,
exceptions.py 39-40), plus the builtin `AttributeError`, `TypeError`,
`NotImplementedError` and a generic `Exception`. -/
inductive PyErr where
  | attributeError (name : String)
  | expressionError (msg : String)
  | validationError (msg : String)
  | findOnMultipleKeys
  | typeError
  | notImplementedError
  | genericException
  deriving DecidableEq, Repr

/-- Python values that flow through conditions and updates: strings,
integers, lists and tuples.  `Option Value` stands for a possibly-`None`
Python value (`none` = Python `None`). -/
inductive Value where
  | str (s : String)
  | int (n : Int)
  | list (l : List Value)
  | tuple (l : List Value)

/-- conditions.py 23-36: the class `OP` of comparison operators.  The
Python constants are strings; here each constant is a constructor and
`OP.pyName` recovers the lowercased attribute name that `OP.name`
computes (conditions.py 38-44). -/
inductive OP where
  | EQ | NE | LTE | LT | GTE | GT
  | IS_IN | CONTAINS | BEGINS_WITH | EXISTS | NOT_EXISTS | BETWEEN
  deriving DecidableEq, Repr

/-- conditions.py 38-44 `OP.name(op).lower()`: the lowercased name of the
class attribute holding the operator. -/
def OP.pyName : OP → String
  | .EQ => "eq"
  | .NE => "ne"
  | .LTE => "lte"
  | .LT => "lt"
  | .GTE => "gte"
  | .GT => "gt"
  | .IS_IN => "is_in"
  | .CONTAINS => "contains"
  | .BEGINS_WITH => "begins_with"
  | .EXISTS => "exists"
  | .NOT_EXISTS => "not_exists"
  | .BETWEEN => "between"

/-- conditions.py 46-54 `OP.num_args`: 0 for EXISTS/NOT_EXISTS, 2 for
BETWEEN, 1 otherwise. -/
def OP.num_args : OP → Nat
  | .EXISTS => 0
  | .NOT_EXISTS => 0
  | .BETWEEN => 2
  | _ => 1

/-- A schema field as consumed by the condition code paths (fields.py):
the only data read there is its `name`. -/
structure SchemaField where
  name : String
  deriving DecidableEq, Repr

/-- conditions.py 140-153 `PrimitiveCondition`: `__init__` assigns exactly
`self.field`, `self.op` and `self.value` and performs no validation of
the operand count. -/
structure PrimitiveCondition where
  field : SchemaField
  op : OP
  value : Option Value

/-- conditions.py 142-153 `PrimitiveCondition.__init__`: it stores its
three arguments unchanged; there is no failure path, so it is embedded
as a total function. -/
def PrimitiveCondition.init (field : SchemaField) (op : OP) (value : Option Value) :
    PrimitiveCondition :=
  ⟨field, op, value⟩

/-- The condition AST (conditions.py): a `BaseCondition` is either a
`PrimitiveCondition` or a join node (`AndCondition` / `OrCondition`)
holding its ordered child list `all`. -/
inductive BaseCondition where
  | prim (p : PrimitiveCondition)
  | andCond (all : List BaseCondition)
  | orCond (all : List BaseCondition)

/-- `left & right` (conditions.py 63-65 and 121-124): when the left
operand is an `AndCondition`, `AndCondition.__and__` appends the right
operand to `self.all` in place and returns the same node; otherwise
`BaseCondition.__and__` builds `AndCondition(left, right)`. -/
def BaseCondition.andOp : BaseCondition → BaseCondition → BaseCondition
  | .andCond l, x => .andCond (l ++ [x])
  | y, x => .andCond [y, x]

/-- `left | right` (conditions.py 67-69 and 134-137): when the left
operand is an `OrCondition`, `OrCondition.__or__` appends in place;
otherwise `BaseCondition.__or__` builds `OrCondition(left, right)`. -/
def BaseCondition.orOp : BaseCondition → BaseCondition → BaseCondition
  | .orCond l, x => .orCond (l ++ [x])
  | y, x => .orCond [y, x]

/-- Helper for stating the flattening law: the child list contributed by
the left operand of `&` — its existing children when it already is an
`AndCondition`, otherwise the node itself. -/
def BaseCondition.asAndChildren : BaseCondition → List BaseCondition
  | .andCond l => l
  | x => [x]

/-- Helper for stating the flattening law for `|`. -/
def BaseCondition.asOrChildren : BaseCondition → List BaseCondition
  | .orCond l => l
  | x => [x]

/-! ## boto3 condition rendering

`PrimitiveCondition._to_boto` (conditions.py 178-187) renders through the
boto3 `Key` or `Attr` builder: `getattr(class_(field.name), fn)` followed
by a call with 0, 1 or splatted 2 arguments.  `Key` exposes only the
key-condition grammar methods; looking up any other method name raises
`AttributeError`. -/

/-- The boto3 builder class used for rendering: `Key` or `Attr`. -/
inductive BotoNS where
  | key
  | attr
  deriving DecidableEq, Repr

/-- A rendered boto3 condition: a method call on `Key(name)`/`Attr(name)`
with its arguments, or an `&`/`|` combination of two rendered
conditions. -/
inductive BotoCond where
  | call0 (ns : BotoNS) (attrName fn : String)
  | call1 (ns : BotoNS) (attrName fn : String) (arg : Option Value)
  | call2 (ns : BotoNS) (attrName fn : String) (a b : Value)
  | andB (x y : BotoCond)
  | orB (x y : BotoCond)

/-- The comparator methods defined on boto3's `Key` builder. -/
def keyMethods : List String :=
  ["eq", "lt", "lte", "gt", "gte", "begins_with", "between"]

/-- The comparator methods defined on boto3's `Attr` builder. -/
def attrMethods : List String :=
  keyMethods ++ ["ne", "is_in", "contains", "exists", "not_exists"]

/-- Whether `getattr(class_(name), fn)` succeeds on the given builder. -/
def BotoNS.supports : BotoNS → String → Bool
  | .key, fn => keyMethods.contains fn
  | .attr, fn => attrMethods.contains fn

/-- Python `fn(*value)` for a two-argument comparator: tuples and lists
of length two splat to the two arguments; a two-character string splats
to its characters; anything else fails the call with `TypeError`. -/
def splatPair : Option Value → Except PyErr (Value × Value)
  | some (.tuple [a, b]) => pure (a, b)
  | some (.list [a, b]) => pure (a, b)
  | some (.str s) =>
    match s.toList with
    | [a, b] => pure (.str (String.mk [a]), .str (String.mk [b]))
    | _ => throw .typeError
  | _ => throw .typeError

/-- conditions.py 178-187 `PrimitiveCondition._to_boto`. -/
def PrimitiveCondition.to_boto (ns : BotoNS) (p : PrimitiveCondition) :
    Except PyErr BotoCond := do
  let fn := p.op.pyName
  if ns.supports fn then
    match p.op.num_args with
    | 0 => pure (.call0 ns p.field.name fn)
    | 1 => pure (.call1 ns p.field.name fn p.value)
    | _ => do
      let (a, b) ← splatPair p.value
      pure (.call2 ns p.field.name fn a b)
  else
    throw (.attributeError fn)

/-- conditions.py 167-173 `PrimitiveCondition.to_boto_key`: an
`AttributeError` raised while rendering against `Key` is re-raised as
`FindOnMultipleKeysError` exactly when the operator is `IS_IN`. -/
def PrimitiveCondition.to_boto_key (p : PrimitiveCondition) : Except PyErr BotoCond :=
  match p.to_boto .key with
  | .error (.attributeError n) =>
    if p.op = .IS_IN then throw .findOnMultipleKeys else throw (.attributeError n)
  | r => r

/-- conditions.py 175-176 `PrimitiveCondition.to_boto_attr`. -/
def PrimitiveCondition.to_boto_attr (p : PrimitiveCondition) : Except PyErr BotoCond :=
  p.to_boto .attr

/-- Accumulator step of `JoinCondition._to_boto` (conditions.py 96-105):
the first child value seeds the expression, later values are combined
with the joining operator. -/
def joinAcc (isAnd : Bool) (acc : Option BotoCond) (v : Option BotoCond) : Option BotoCond :=
  match acc, v with
  | none, w => w
  | some a, some b => some (if isAnd then .andB a b else .orB a b)
  | some a, none => some a

/-- conditions.py 96-111: `JoinCondition._to_boto` iterates the child
list, renders each child with the requested projection (`to_boto_key`
when `isKey`, else `to_boto_attr`) and folds the results with the join
operator; a `PrimitiveCondition` renders directly.  The first child
error aborts, as in Python. -/
def BaseCondition.toBotoRec (isKey : Bool) : BaseCondition → Except PyErr (Option BotoCond)
  | .prim p => do
    let b ← if isKey then p.to_boto_key else p.to_boto_attr
    pure (some b)
  | .andCond l => do
    let vs ← l.attach.mapM fun c => BaseCondition.toBotoRec isKey c.1
    pure (vs.foldl (joinAcc true) none)
  | .orCond l => do
    let vs ← l.attach.mapM fun c => BaseCondition.toBotoRec isKey c.1
    pure (vs.foldl (joinAcc false) none)
  termination_by c => sizeOf c
  decreasing_by
    all_goals simp_wf
    all_goals have := List.sizeOf_lt_of_mem c.2
    all_goals omega

/-- conditions.py 107-108 `to_boto_key` on any condition node. -/
def BaseCondition.to_boto_key (c : BaseCondition) : Except PyErr (Option BotoCond) :=
  c.toBotoRec true

/-- conditions.py 110-111 `to_boto_attr` on any condition node. -/
def BaseCondition.to_boto_attr (c : BaseCondition) : Except PyErr (Option BotoCond) :=
  c.toBotoRec false

/-! ## Python attribute lookup on the embedded objects

model.py reads attributes such as `e.attr.name` and `e_.field.op` on
condition and field objects.  To settle whether those reads succeed, the
instance-attribute dictionary that each constructor actually assigns is
made explicit, and lookup of a name missing from it evaluates to
`AttributeError`, as in CPython. -/

/-- A member value reachable through attribute lookup on the embedded
objects. -/
inductive PyMember where
  | pyField (f : SchemaField)
  | pyOp (o : OP)
  | pyValue (v : Option Value)
  | pyCondList (l : List BaseCondition)
  | pyStr (s : String)

/-- The instance attributes a `SchemaField` exposes to the embedded code
paths.  fields.py assigns `name` (plus validation metadata not read
here); crucially it assigns no attribute named `op` or `attr`. -/
def SchemaField.instanceDict (f : SchemaField) : List (String × PyMember) :=
  [("name", .pyStr f.name)]

/-- Python `getattr` on a field object. -/
def SchemaField.getattr (f : SchemaField) (n : String) : Except PyErr PyMember :=
  match f.instanceDict.find? (fun kv => kv.1 == n) with
  | some kv => pure kv.2
  | none => throw (.attributeError n)

/-- The instance attributes assigned by `PrimitiveCondition.__init__`
(conditions.py 150-153): exactly `field`, `op` and `value` — in
particular no attribute named `attr`. -/
def PrimitiveCondition.instanceDict (p : PrimitiveCondition) : List (String × PyMember) :=
  [("field", .pyField p.field), ("op", .pyOp p.op), ("value", .pyValue p.value)]

/-- The instance attributes of a condition node: a join node assigns
`all` (conditions.py 84-85). -/
def BaseCondition.instanceDict : BaseCondition → List (String × PyMember)
  | .prim p => p.instanceDict
  | .andCond l => [("all", .pyCondList l)]
  | .orCond l => [("all", .pyCondList l)]

/-- Python `getattr` on a condition object. -/
def BaseCondition.getattr (c : BaseCondition) (n : String) : Except PyErr PyMember :=
  match c.instanceDict.find? (fun kv => kv.1 == n) with
  | some kv => pure kv.2
  | none => throw (.attributeError n)

/-- Python attribute lookup on an already looked-up member: only field
objects expose further attributes among the names read here. -/
def PyMember.getattr : PyMember → String → Except PyErr PyMember
  | .pyField f, n => f.getattr n
  | _, n => throw (.attributeError n)

/-- Read a looked-up member as a string (the `name` attribute). -/
def PyMember.asStr : PyMember → Except PyErr String
  | .pyStr s => pure s
  | _ => throw .typeError

/-- Read a looked-up member as an operator. -/
def PyMember.asOp : PyMember → Except PyErr OP
  | .pyOp o => pure o
  | _ => throw .typeError

/-! ## model.py: the key classifier and the get_many dispatcher -/

/-- model.py 22-25: the strictness levels. -/
def STRICT_HASH : Nat := 1

/-- model.py 22-25: the strictness levels. -/
def STRICT_RANGE : Nat := 2

/-- model.py 22-25: the strictness levels. -/
def STRICT_BOTH : Nat := 3

/-- The primary-key definition of a bound model (`__hash_key__` required,
`__range_key__` optional, model.py 107-109). -/
structure Schema where
  hashKey : String
  rangeKey : Option String
  deriving DecidableEq, Repr

/-- model.py 163-171 `Model._primary_keys`: `[hash_key, range_key]` when
a range key is declared, else `[hash_key]`. -/
def Schema.primaryKeys (m : Schema) : List String :=
  match m.rangeKey with
  | some r => [m.hashKey, r]
  | none => [m.hashKey]

/-- model.py 173-176 `Model._is_key_expression`:
`isinstance(e, PrimitiveCondition) and e.attr.name in cls._primary_keys()`.
The `isinstance` test short-circuits for join nodes; for a
`PrimitiveCondition` the source then reads `e.attr.name`. -/
def Model.is_key_expression (m : Schema) (e : BaseCondition) : Except PyErr Bool :=
  match e with
  | .prim _ => do
    let a ← e.getattr "attr"
    let n ← (← a.getattr "name").asStr
    pure (m.primaryKeys.contains n)
  | _ => pure false

/-- A Python list comprehension with a fallible predicate: elements are
tested left to right and the first exception aborts. -/
def pyFilter {α : Type} (p : α → Except PyErr Bool) : List α → Except PyErr (List α)
  | [] => pure []
  | x :: xs => do
    let b ← p x
    let rest ← pyFilter p xs
    pure (if b then x :: rest else rest)

/-- model.py 218-231 `_equality_or_raise`: iterates the dict
`{hash: (hash_key, STRICT_HASH), range: (range_key, STRICT_RANGE)}` in
insertion order; when `strict_level in [STRICT_BOTH, level]` holds, the
source evaluates `e_.field.op != OP.EQ` and then `e_.field.name == key`,
raising `ExpressionError` when a covered key attribute is compared with
a non-equality operator. -/
def Model.equality_or_raise (m : Schema) (strict_level : Option Nat) (e : BaseCondition) :
    Except PyErr Unit := do
  let checkEntry : Option String → Nat → String → Except PyErr Unit :=
    fun key level text => do
      if strict_level = some STRICT_BOTH ∨ strict_level = some level then
        let fop ← (← (← e.getattr "field").getattr "op").asOp
        if fop ≠ .EQ then
          let fname ← (← (← e.getattr "field").getattr "name").asStr
          if some fname = key then
            throw (.expressionError
              ("An equality expression was required for the " ++ text ++ " key"))
  checkEntry (some m.hashKey) STRICT_HASH "hash"
  checkEntry m.rangeKey STRICT_RANGE "range"

/-- model.py 179-266 `Model._extract_key_conditions`: collects the
comparisons directly inside the condition (or inside a single top-level
`AndCondition`), keeps the ones `_is_key_expression` accepts, rejects
repeated key attributes, enforces the strictness levels, optionally
requires every primary key to be covered, and rejects a lone range-key
condition.  Returns `none` when no key-bearing comparison is found. -/
def Model.extract_key_conditions (m : Schema) (expression : Option BaseCondition)
    (strict_level : Option Nat) (all_required : Bool) :
    Except PyErr (Option (List BaseCondition)) := do
  match expression with
  | none => pure none
  | some expr => do
    let exprs0 : List BaseCondition :=
      match expr with
      | .prim _ => [expr]
      | .andCond l => l
      | .orCond _ => []
    let exprs ← pyFilter (Model.is_key_expression m) exprs0
    let size := exprs.length
    let field_names ← exprs.mapM fun e => do
      (← (← e.getattr "attr").getattr "name").asStr
    if field_names.eraseDups.length ≠ size then
      throw (.expressionError "Cannot repeat keys in the same expression")
    let _ ← exprs.mapM (Model.equality_or_raise m strict_level)
    if all_required ∧ m.primaryKeys.length ≠ size then
      throw (.expressionError
        (if m.rangeKey.isSome then
          "Conditions on both hash and range key must be specified joined with the AND operator"
        else "condition on hash key attribute must be specified"))
    if size = 0 then
      pure none
    else
      if size = 1 then do
        let n ← match exprs with
          | e :: _ => do (← (← e.getattr "attr").getattr "name").asStr
          | [] => throw .typeError
        if some n = m.rangeKey then
          throw (.expressionError
            "range_key expression cannot be used without hash_key expression")
        pure (some exprs)
      else
        pure (some exprs)

/-- model.py 287-299 `Model._extract_key_cond`: renders the extracted
key conditions through `to_boto_key`, joining two of them through
`AndCondition(*conditions)` (whose constructor takes exactly a left and
a right operand, so three or more would fail the call). -/
def Model.extract_key_cond (m : Schema) (expression : Option BaseCondition)
    (strict_level : Option Nat) (all_required : Bool) :
    Except PyErr (Option BotoCond) := do
  let conditions ← Model.extract_key_conditions m expression strict_level all_required
  match conditions with
  | none => pure none
  | some [c] => c.to_boto_key
  | some [a, b] => (BaseCondition.andCond [a, b]).to_boto_key
  | some _ => throw .typeError

/-- model.py 301-323 `Model._extract_attr_cond`: a key-bearing
comparison renders to no filter; an `OrCondition` renders whole; an
`AndCondition` drops its key-bearing children and re-joins the rest
with `&` before rendering; an `AndCondition` with no non-key child
falls through to `raise ExpressionError("", expression)`. -/
def Model.extract_attr_cond (m : Schema) (expression : Option BaseCondition) :
    Except PyErr (Option BotoCond) := do
  match expression with
  | none => pure none
  | some e =>
    match e with
    | .prim _ => do
      let b ← Model.is_key_expression m e
      if b then pure none else e.to_boto_attr
    | .orCond _ => e.to_boto_attr
    | .andCond l => do
      let keep ← pyFilter (fun c => do pure (!(← Model.is_key_expression m c))) l
      match keep with
      | e0 :: rest => (rest.foldl BaseCondition.andOp e0).to_boto_attr
      | [] => throw (.expressionError "")

/-- Python `len`/iteration over the stored IN operand
(`items = expression.value`, model.py 524): lists and tuples enumerate
their elements, strings their characters; `None` or a number fails with
`TypeError`. -/
def pyAsList : Option Value → Except PyErr (List Value)
  | some (.list l) => pure l
  | some (.tuple l) => pure l
  | some (.str s) => pure (s.toList.map fun ch => .str (String.mk [ch]))
  | _ => throw .typeError

/-- The strategy argument accepted by `Model.get_many` (model.py
494-506): a `CompoundKeyCondition`, a plain list of key specifications,
or a condition expression. -/
inductive GetManyStrategy where
  | compound (values : List Value)
  | items (its : List Value)
  | expr (e : BaseCondition)

/-- The store operation `Model.get_many` commits to before any round
trip: a batch get over a list of keys, or a query/scan with the rendered
key condition and filter (a query when `kc` is present, a scan
otherwise, model.py 575-594). -/
inductive GetManyPlan where
  | batchGet (items : List Value)
  | search (kc : Option BotoCond) (fc : Option BotoCond)

/-- model.py 477-617 `Model.get_many`, up to the choice of store
operation: the condition branch tries `_extract_key_cond` and
`_extract_attr_cond`; a `FindOnMultipleKeysError` (and only that
exception class — a plain `AttributeError` is not caught) re-routes
either to a batch get over the IN value set (single comparison on the
hash key of a schema without range key) or to a scan with the whole
condition as filter.  With items the plan is a batch get; with a key or
filter condition it is a query/scan; otherwise `ValidationError`. -/
def Model.get_many_plan (m : Schema) (strategy : GetManyStrategy) :
    Except PyErr GetManyPlan := do
  let state : List Value × Option BotoCond × Option BotoCond ←
    match strategy with
    | .compound vs => pure (vs, none, none)
    | .items its => pure (its, none, none)
    | .expr e =>
      match (do
          let kc ← Model.extract_key_cond m (some e) none false
          let fc ← Model.extract_attr_cond m (some e)
          pure (kc, fc) : Except PyErr (Option BotoCond × Option BotoCond)) with
      | .ok (kc, fc) => pure (([] : List Value), kc, fc)
      | .error er =>
        if er = .findOnMultipleKeys then
          match e with
          | .prim p => do
            let n ← (← (← (BaseCondition.prim p).getattr "attr").getattr "name").asStr
            if n = m.hashKey ∧ m.rangeKey = none then do
              let its ← pyAsList p.value
              pure (its, none, none)
            else do
              let fcv ← (BaseCondition.prim p).to_boto_attr
              pure (([] : List Value), none, fcv)
          | _ => do
            let fcv ← e.to_boto_attr
            pure (([] : List Value), none, fcv)
        else
          throw er
  match state with
  | (items, kc, fc) =>
    if items.length ≠ 0 then
      pure (.batchGet items)
    else
      if kc.isSome ∨ fc.isSome then
        pure (.search kc fc)
      else
        throw (.validationError "Invalid expression")

/-! ## models.py: the result iterators -/

/-- One `batch_get_item` round-trip response: the decoded items for the
table and the `UnprocessedKeys` remainder (items and keys carry opaque
numeric payloads here). -/
structure BGResponse where
  itemsR : List Nat
  unprocessed : List Nat
  deriving DecidableEq, Repr

/-- models.py 282-312 `BatchIterator.__iter__`, viewed as the list of
round trips actually issued.  `responses` is the oracle of what the
store would answer, consumed one entry per `batch_get_item` call; the
loop runs while keys remain, resets the retry flag on a non-empty
round, spends it on an empty round, and breaks on an empty round with
the flag already spent; the next round's keys are the unprocessed
remainder. -/
def BatchIterator.rounds : List BGResponse → List Nat → Bool → List BGResponse
  | _, [], _ => []
  | [], _ :: _, _ => []
  | r :: rest, _ :: _, retryFlag =>
    if r.itemsR.length ≠ 0 then
      r :: BatchIterator.rounds rest r.unprocessed true
    else
      if retryFlag then
        r :: BatchIterator.rounds rest r.unprocessed false
      else
        [r]

/-- models.py 286-287: the iterator starts with `retry_while_no_items = True`. -/
def BatchIterator.run (responses : List BGResponse) (keys : List Nat) : List BGResponse :=
  BatchIterator.rounds responses keys true

/-- One `query`/`scan` round-trip response: the returned items and the
optional `LastEvaluatedKey` continuation cursor. -/
structure SearchResponse where
  itemsR : List Nat
  lastEvaluatedKey : Option Nat
  deriving DecidableEq, Repr

/-- The request parameters of one `query`/`scan` call that the claims
talk about: the `Limit` entry (absent when never set) and the
`ExclusiveStartKey` cursor. -/
structure SearchCall where
  limitP : Option Nat
  exclusiveStartKey : Option Nat
  deriving DecidableEq, Repr

/-- Python truthiness of the `limit` attribute (`if limit:`,
models.py 375): `None` and `0` are falsy. -/
def pyTruthyNat : Option Nat → Bool
  | none => false
  | some n => n != 0

/-- models.py 363-384 `SearchIterator.__iter__`: each round trip yields
every returned item; afterwards, when `limit` is truthy,
`remaining = limit - total_found` breaks the loop if below one and is
otherwise written into `params['Limit']`; then a missing
`LastEvaluatedKey` breaks, and otherwise the cursor is written into
`params['ExclusiveStartKey']` for the next call.  The result pairs the
issued calls with the yielded items. -/
def SearchIterator.run :
    List SearchResponse → SearchCall → Option Nat → Nat → List SearchCall × List Nat
  | [], _, _, _ => ([], [])
  | r :: rest, params, limit, total =>
    let total2 := total + r.itemsR.length
    if pyTruthyNat limit && decide (limit.getD 0 ≤ total2) then
      ([params], r.itemsR)
    else
      let params2 :=
        if pyTruthyNat limit then { params with limitP := some (limit.getD 0 - total2) }
        else params
      match r.lastEvaluatedKey with
      | none => ([params], r.itemsR)
      | some k =>
        let next := SearchIterator.run rest { params2 with exclusiveStartKey := some k } limit total2
        (params :: next.1, r.itemsR ++ next.2)

/-- Entry point: `_params` includes `Limit` exactly when `self.limit is
not None` (models.py 348-349) and the loop starts with
`total_found = 0`. -/
def SearchIterator.iterate (responses : List SearchResponse) (limit : Option Nat) :
    List SearchCall × List Nat :=
  SearchIterator.run responses ⟨limit, none⟩ limit 0

/-- The number of items the store returned in the first `n` rounds. -/
def totalAfter (rs : List SearchResponse) (n : Nat) : Nat :=
  ((rs.take n).map fun r => r.itemsR.length).sum

/-! ## updates.py: the update-expression compiler -/

/-- A schema field as consumed by the update compiler: its `name` and
the opaque encoder `to_primitive` (fields.py; the spec treats value
coercion as an external capability). -/
structure UpdateField where
  name : String
  toPrimitive : Option Value → Option Value

/-- utils.py 8-19 `is_empty`: a value is empty iff it is `None` or the
empty string.  In particular `0` and `[]` are not empty. -/
def is_empty : Option Value → Bool
  | none => true
  | some (.str s) => s.length == 0
  | some _ => false

/-- The three update action groups (updates.py 16-18). -/
inductive UpdateType where
  | SET
  | ADD
  | REMOVE
  deriving DecidableEq, Repr

/-- updates.py 14-23 `UpdateBuilder`: one compiled clause — its action
group, its expression fragment, and its placeholder value table. -/
structure UpdateBuilder where
  type_ : UpdateType
  expression : String
  values : List (String × Value)

/-- updates.py 65-77 `Update.value`: nested (dotted) attribute names are
rejected with `NotImplementedError`; otherwise the field encoder
produces the primitive value. -/
def Update.valueOf (field : UpdateField) (v : Option Value) : Except PyErr (Option Value) :=
  if field.name.toList.contains '.' then throw .notImplementedError
  else pure (field.toPrimitive v)

/-- updates.py 86-90 `Update.placeholder`: increments the process-wide
counter `Update._index` (threaded here explicitly) and returns
`:val{index}` for the incremented value. -/
def Update.placeholder (index : Nat) : String × Nat :=
  (":val" ++ toString (index + 1), index + 1)

/-- updates.py 93-100 `RemoveUpdate.create`: evaluates `self.value` (to
reject removal of a field the encoder refuses to blank) and emits a
REMOVE clause with an empty value table. -/
def RemoveUpdate.create (field : UpdateField) (index : Nat) :
    Except PyErr (Option UpdateBuilder × Nat) := do
  let _ ← Update.valueOf field none
  pure (some ⟨.REMOVE, field.name, []⟩, index)

/-- updates.py 103-124 `SetUpdate.create`: an empty encoded value is a
no-op under `if_not_exists` and otherwise degrades to
`RemoveUpdate.create`; a non-empty value binds a fresh placeholder,
wrapped in `if_not_exists(name, ph)` when requested. -/
def SetUpdate.create (field : UpdateField) (value : Option Value) (ifNotExists : Bool)
    (index : Nat) : Except PyErr (Option UpdateBuilder × Nat) := do
  let v ← Update.valueOf field value
  if is_empty v then
    if ifNotExists then pure (none, index)
    else RemoveUpdate.create field index
  else
    match v with
    | some w =>
      let (ph, index2) := Update.placeholder index
      let rhs :=
        if ifNotExists then "if_not_exists(" ++ field.name ++ ", " ++ ph ++ ")" else ph
      pure (some ⟨.SET, field.name ++ " = " ++ rhs, [(ph, w)]⟩, index2)
    | none => pure (none, index)

/-- updates.py 127-145 `ListExtendUpdate.create`: an empty encoded value
is a no-op; otherwise a SET clause invoking `list_append` with
`(name, ph)` ordering when appending and `(ph, name)` when
prepending. -/
def ListExtendUpdate.create (field : UpdateField) (value : Option Value) (append : Bool)
    (index : Nat) : Except PyErr (Option UpdateBuilder × Nat) := do
  let v ← Update.valueOf field value
  if is_empty v then pure (none, index)
  else
    match v with
    | some w =>
      let (ph, index2) := Update.placeholder index
      let expr :=
        if append then
          field.name ++ " = list_append(" ++ field.name ++ ", " ++ ph ++ ")"
        else
          field.name ++ " = list_append(" ++ ph ++ ", " ++ field.name ++ ")"
      pure (some ⟨.SET, expr, [(ph, w)]⟩, index2)
    | none => pure (none, index)

/-- updates.py 148-158 `AddUpdate.create`: asserts a top-level attribute,
then an empty encoded value is a no-op and a non-empty one emits an ADD
clause binding a fresh placeholder. -/
def AddUpdate.create (field : UpdateField) (value : Option Value) (index : Nat) :
    Except PyErr (Option UpdateBuilder × Nat) := do
  if field.name.toList.contains '.' then throw .genericException
  let v ← Update.valueOf field value
  if is_empty v then pure (none, index)
  else
    match v with
    | some w =>
      let (ph, index2) := Update.placeholder index
      pure (some ⟨.ADD, field.name ++ " " ++ ph, [(ph, w)]⟩, index2)
    | none => pure (none, index)

/-- The update nodes the builders on fields produce (updates.py 54-158):
`set`/`set_if_not_exists`, `remove`, `add`, `append`/`prepend`. -/
inductive UpdateNode where
  | setU (field : UpdateField) (value : Option Value) (ifNotExists : Bool)
  | removeU (field : UpdateField)
  | addU (field : UpdateField) (value : Option Value)
  | listExtendU (field : UpdateField) (value : Option Value) (append : Bool)

/-- Dispatch of `update.create()` on the node kind. -/
def UpdateNode.create : UpdateNode → Nat → Except PyErr (Option UpdateBuilder × Nat)
  | .setU f v ine, i => SetUpdate.create f v ine i
  | .removeU f, i => RemoveUpdate.create f i
  | .addU f v, i => AddUpdate.create f v i
  | .listExtendU f v ap, i => ListExtendUpdate.create f v ap i

/-- updates.py 40: `builders = [update.create() for update in updates]`,
threading the process-wide placeholder counter left to right; `None`
entries (no-op updates) are dropped, as the source skips them. -/
def UpdateBuilder.thread : List UpdateNode → Nat → Except PyErr (List UpdateBuilder × Nat)
  | [], i => pure ([], i)
  | u :: us, i => do
    let (b, i2) ← u.create i
    let (bs, i3) ← UpdateBuilder.thread us i2
    match b with
    | some bb => pure (bb :: bs, i3)
    | none => pure (bs, i3)

/-- The expression fragments of one action group, in builder order. -/
def UpdateBuilder.group (t : UpdateType) (bs : List UpdateBuilder) : List String :=
  bs.filterMap fun b => if b.type_ = t then some b.expression else none

/-- The source text of an action keyword (updates.py 16-18). -/
def UpdateType.text : UpdateType → String
  | .SET => "SET"
  | .ADD => "ADD"
  | .REMOVE => "REMOVE"

/-- updates.py 25-51 `UpdateBuilder.create`: runs every update's
`create`, groups the clauses into the ordered groups SET, ADD, REMOVE,
merges the value tables, renders each non-empty group as
`ACTION opt1, opt2, ...` and joins the groups with single spaces.
Returns the compiled expression, the merged value table and the
counter after compilation. -/
def UpdateBuilder.create (updates : List UpdateNode) (index : Nat) :
    Except PyErr ((String × List (String × Value)) × Nat) := do
  let (builders, index2) ← UpdateBuilder.thread updates index
  let values := builders.foldl (fun acc b => acc ++ b.values) []
  let segs := [UpdateType.SET, UpdateType.ADD, UpdateType.REMOVE].filterMap fun t =>
    let opts := UpdateBuilder.group t builders
    if opts.length > 0 then some (t.text ++ " " ++ String.intercalate ", " opts) else none
  pure ((String.intercalate " " segs, values), index2)

/-! ## model.py: BatchResult and its shared default lists -/

/-- A heap of Python list objects, indexed by allocation id.  Needed
because `BatchResult.__init__` (model.py 957-959) uses mutable default
arguments: `def __init__(self, fail=list(), success=list())` creates the
two default list objects once, when the function object is defined, and
every later call that omits the arguments binds those same two
objects. -/
structure PyListHeap where
  cells : List (List Nat)
  deriving DecidableEq, Repr

/-- Heap id of the default `fail` list object, allocated at module
definition time. -/
def defaultFailId : Nat := 0

/-- Heap id of the default `success` list object, allocated at module
definition time. -/
def defaultSuccessId : Nat := 1

/-- The heap after model.py is imported: the two default list objects
exist and are empty. -/
def moduleHeap : PyListHeap := ⟨[[], []]⟩

/-- model.py 955-959 `BatchResult`: holds references (heap ids) to its
`success` and `fail` lists. -/
structure BatchResult where
  fail : Nat
  success : Nat
  deriving DecidableEq, Repr

/-- `BatchResult()` with the arguments omitted: binds `self.fail` and
`self.success` to the two default list objects — the same objects for
every such call. -/
def BatchResult.init : BatchResult :=
  ⟨defaultFailId, defaultSuccessId⟩

/-- Read a list object from the heap. -/
def PyListHeap.read (h : PyListHeap) (i : Nat) : List Nat :=
  h.cells.getD i []

/-- `lst.append(x)` / one step of `lst.extend(...)` on a heap cell. -/
def PyListHeap.push (h : PyListHeap) (i : Nat) (x : Nat) : PyListHeap :=
  ⟨h.cells.set i (h.cells.getD i [] ++ [x])⟩

/-- The current contents of a result's `success` list. -/
def BatchResult.successValue (r : BatchResult) (h : PyListHeap) : List Nat :=
  h.read r.success

/-- `result.success.append(x)` (model.py 681, 687): mutates the list
object the reference points at. -/
def BatchResult.appendSuccess (r : BatchResult) (x : Nat) (h : PyListHeap) : PyListHeap :=
  h.push r.success x

/-! ## Concrete scenario data used by the claim theorems -/

/-- Modelled from the spec wording: the operand count a condition
supplies — `None` counts as zero operands, a tuple as its components
(the `between` builder packs its two operands into a tuple), anything
else as one operand. -/
def specOperandCount : Option Value → Nat
  | none => 0
  | some (.tuple l) => l.length
  | some _ => 1

/-- A schema with hash key `user_id` and range key `email` (the
composite-key example of the repository). -/
def schemaUserEmail : Schema := ⟨"user_id", some "email"⟩

/-- A schema with hash key `email` and no range key (the `User` example
of the repository). -/
def schemaEmailOnly : Schema := ⟨"email", none⟩

/-- `user_id == "u1"`. -/
def condHashEq : BaseCondition := .prim ⟨⟨"user_id"⟩, .EQ, some (.str "u1")⟩

/-- `email.between("a", "b")`. -/
def condRangeBetween : BaseCondition :=
  .prim ⟨⟨"email"⟩, .BETWEEN, some (.tuple [.str "a", .str "b"])⟩

/-- `user_id > "u1"`. -/
def condHashGt : BaseCondition := .prim ⟨⟨"user_id"⟩, .GT, some (.str "u1")⟩

/-- `email == "e1"`. -/
def condRangeEq : BaseCondition := .prim ⟨⟨"email"⟩, .EQ, some (.str "e1")⟩

/-- `email.in_(["a", "b"])` against `schemaEmailOnly`. -/
def condEmailIn : BaseCondition :=
  .prim ⟨⟨"email"⟩, .IS_IN, some (.list [.str "a", .str "b"])⟩

/-- `user_id.in_(["u1"])` against `schemaUserEmail`. -/
def condHashIn : BaseCondition := .prim ⟨⟨"user_id"⟩, .IS_IN, some (.list [.str "u1"])⟩

/-- Update-compiler scenario field `name` (the encoder is the opaque
external capability, instantiated with the identity for these concrete
scenarios). -/
def nameField : UpdateField := ⟨"name", fun v => v⟩

/-- Update-compiler scenario field `count`. -/
def countField : UpdateField := ⟨"count", fun v => v⟩

/-- Update-compiler scenario field `tag`. -/
def tagField : UpdateField := ⟨"tag", fun v => v⟩

/-- Update-compiler scenario field `tags` (a list field). -/
def tagsField : UpdateField := ⟨"tags", fun v => v⟩

/-- The update list of the round-trip scenario:
`{set(name, "X"), add(count, 1), remove(tag)}`. -/
def updatesScenario : List UpdateNode :=
  [.setU nameField (some (.str "X")) false,
   .addU countField (some (.int 1)),
   .removeU tagField]

end Dynamongo

namespace Dynamongo

/-! ## Claim theorems -/

/-- C1 (amended): for every schema, strictness mode and duplication of
key comparisons, classifying a condition that contains a comparison —
a lone `PrimitiveCondition` or an `AndCondition` whose first child is
one — raises `AttributeError("attr")` before any strictness rule runs:
`_is_key_expression` reads `e.attr` but `PrimitiveCondition.__init__`
stores the attribute under `field` only.  Neither the claimed success
under `RANGE_ONLY` nor the claimed `ExpressionError` under `HASH_ONLY`
is reachable. -/
theorem C1_classifier_attribute_error (m : Schema) (strict : Option Nat) (allReq : Bool)
    (p : PrimitiveCondition) (rest : List BaseCondition) :
    Model.extract_key_conditions m (some (.prim p)) strict allReq
      = .error (.attributeError "attr")
    ∧ Model.extract_key_conditions m (some (.andCond (.prim p :: rest))) strict allReq
      = .error (.attributeError "attr") :=
  ⟨rfl, rfl⟩

/-- C1, counterexample: classifying `user_id.eq("u1") & email.between("a","b")`
under `STRICT_RANGE` does not succeed with both comparisons — it raises
`AttributeError` (and `user_id.gt("u1") & email.eq("e1")` under
`STRICT_HASH` raises `AttributeError`, not `ExpressionError`). -/
theorem C1_counterexample :
    Model.extract_key_conditions schemaUserEmail
        (some (.andCond [condHashEq, condRangeBetween])) (some STRICT_RANGE) false
      = .error (.attributeError "attr")
    ∧ Model.extract_key_conditions schemaUserEmail
        (some (.andCond [condHashGt, condRangeEq])) (some STRICT_HASH) false
      = .error (.attributeError "attr") :=
  ⟨rfl, rfl⟩

/-- C2: `get_many` with a hash-key `IN` condition does not re-route to a
batch get (or scan) — the classifier crashes first with a plain
`AttributeError` from `e.attr`, which the `except FindOnMultipleKeysError`
clause does not catch (it catches only the strict subclass), so the
error propagates to the caller.  Both with and without a range key. -/
theorem C2_in_reroute_bug :
    Model.get_many_plan schemaEmailOnly (.expr condEmailIn)
      = .error (.attributeError "attr")
    ∧ Model.get_many_plan schemaUserEmail (.expr condHashIn)
      = .error (.attributeError "attr") :=
  ⟨rfl, rfl⟩

/-- C9: classifying a lone range-key comparison (`email == "e1"` against
the composite-key schema, hash key absent) raises `AttributeError`, not
the documented `ExpressionError` about the range key requiring the hash
key — the guard at model.py 258-264 is unreachable because the filter
crashes on `e.attr` first.  Both the loose and the strict invocation. -/
theorem C9_range_alone_bug :
    Model.extract_key_conditions schemaUserEmail (some condRangeEq) none false
      = .error (.attributeError "attr")
    ∧ Model.extract_key_conditions schemaUserEmail (some condRangeEq)
        (some STRICT_BOTH) true
      = .error (.attributeError "attr") :=
  ⟨rfl, rfl⟩

/-- Once the retry flag is spent, an empty round is the final round: the
loop breaks without issuing another call. -/
theorem BatchIterator.rounds_flag_spent (rs : List BGResponse) (ks : List Nat)
    (r : BGResponse) (tl : List BGResponse)
    (h : BatchIterator.rounds rs ks false = r :: tl) (he : r.itemsR = []) :
    tl = [] := by
  cases rs with
  | nil => cases ks <;> simp [BatchIterator.rounds] at h
  | cons r0 rest =>
    cases ks with
    | nil => simp [BatchIterator.rounds] at h
    | cons k ks2 =>
      simp only [BatchIterator.rounds, Bool.false_eq_true, if_false] at h
      by_cases hlen : r0.itemsR.length ≠ 0
      · rw [if_pos hlen] at h
        injection h with h1 h2
        subst h1
        simp [he] at hlen
      · rw [if_neg hlen] at h
        injection h with h1 h2
        exact h2.symm

/-- The batch retry policy: in the sequence of issued round trips, a
round trip is never issued after two consecutive empty round trips. -/
theorem BatchIterator.no_third_round (rs : List BGResponse) :
    ∀ (ks : List Nat) (flag : Bool) (i : Nat) (a b : BGResponse),
      (BatchIterator.rounds rs ks flag).get? i = some a → a.itemsR = [] →
      (BatchIterator.rounds rs ks flag).get? (i + 1) = some b → b.itemsR = [] →
      (BatchIterator.rounds rs ks flag).get? (i + 2) = none := by
  induction rs with
  | nil =>
    intro ks flag i a b h1 _ _ _
    cases ks <;> simp [BatchIterator.rounds] at h1
  | cons r rest ih =>
    intro ks flag i a b h1 ha h2 hb
    cases ks with
    | nil => simp [BatchIterator.rounds] at h1
    | cons k ks2 =>
      by_cases hlen : r.itemsR.length ≠ 0
      · simp only [BatchIterator.rounds, if_pos hlen] at h1 h2 ⊢
        cases i with
        | zero =>
          simp only [List.get?_cons_zero, Option.some.injEq] at h1
          subst h1
          simp [ha] at hlen
        | succ j =>
          simp only [List.get?_cons_succ] at h1 h2 ⊢
          exact ih _ _ j a b h1 ha h2 hb
      · cases flag with
        | true =>
          simp only [BatchIterator.rounds, if_neg hlen, if_true] at h1 h2 ⊢
          cases i with
          | zero =>
            simp only [List.get?_cons_succ, List.get?_cons_zero] at h2 ⊢
            cases hL : BatchIterator.rounds rest r.unprocessed false with
            | nil => simp [hL] at h2
            | cons c0 tl =>
              rw [hL] at h2
              simp only [List.get?_cons_zero, Option.some.injEq] at h2
              have hb0 : c0.itemsR = [] := by rw [h2]; exact hb
              have htl := BatchIterator.rounds_flag_spent rest r.unprocessed c0 tl hL hb0
              simp [hL, htl]
          | succ j =>
            simp only [List.get?_cons_succ] at h1 h2 ⊢
            exact ih _ _ j a b h1 ha h2 hb
        | false =>
          simp only [BatchIterator.rounds, if_neg hlen, Bool.false_eq_true, if_false] at h2
          simp at h2

/-- C3: the batch retry policy — after a round trip that returns zero
items the iterator issues at most one further round trip unless items
arrived in between, and never issues a round trip after two consecutive
empty rounds; in the concrete run with an empty first round, a non-empty
second round and two further empty rounds, exactly four round trips are
issued — the fifth response is never requested. -/
theorem C3_batch_retry :
    (∀ (rs : List BGResponse) (ks : List Nat) (i : Nat) (a b : BGResponse),
        (BatchIterator.run rs ks).get? i = some a → a.itemsR = [] →
        (BatchIterator.run rs ks).get? (i + 1) = some b → b.itemsR = [] →
        (BatchIterator.run rs ks).get? (i + 2) = none)
    ∧ BatchIterator.run
        [⟨[], [1]⟩, ⟨[10], [2]⟩, ⟨[], [3]⟩, ⟨[], [4]⟩, ⟨[20], [5]⟩] [0]
      = [⟨[], [1]⟩, ⟨[10], [2]⟩, ⟨[], [3]⟩, ⟨[], [4]⟩] :=
  ⟨fun rs ks => BatchIterator.no_third_round rs ks true, by decide⟩

/-- C3, witness: a run whose first two rounds are empty stops there —
the third response is never requested. -/
theorem C3_batch_retry_witness :
    (BatchIterator.run [⟨[], [1]⟩, ⟨[], [2]⟩, ⟨[9], [3]⟩] [0]).get? 2 = none :=
  C3_batch_retry.1 [⟨[], [1]⟩, ⟨[], [2]⟩, ⟨[9], [3]⟩] [0] 0
    ⟨[], [1]⟩ ⟨[], [2]⟩ (by decide) rfl (by decide) rfl

/-- The paginated iterator yields every item of every round it actually
issues, in store order. -/
theorem SearchIterator.run_yields (rs : List SearchResponse) :
    ∀ (params : SearchCall) (limit : Option Nat) (total : Nat),
      (SearchIterator.run rs params limit total).2
        = ((rs.take (SearchIterator.run rs params limit total).1.length).map
            fun r => r.itemsR).flatten := by
  induction rs with
  | nil => intro params limit total; simp [SearchIterator.run]
  | cons r rest ih =>
    intro params limit total
    simp only [SearchIterator.run]
    split
    · simp
    · split
      · simp
      · simp [ih]

/-- The first call of a run carries exactly the entry parameters. -/
theorem SearchIterator.run_fst_head (rs : List SearchResponse) (params : SearchCall)
    (limit : Option Nat) (total : Nat) (c : SearchCall) (tl : List SearchCall)
    (h : (SearchIterator.run rs params limit total).1 = c :: tl) : c = params := by
  cases rs with
  | nil => simp [SearchIterator.run] at h
  | cons r rest =>
    simp only [SearchIterator.run] at h
    split at h
    · injection h with h1 _
      exact h1.symm
    · split at h
      · injection h with h1 _
        exact h1.symm
      · injection h with h1 _
        exact h1.symm

/-- Unfolding lemma for `totalAfter` on a cons cell. -/
theorem totalAfter_cons_succ (r : SearchResponse) (rest : List SearchResponse) (n : Nat) :
    totalAfter (r :: rest) (n + 1) = r.itemsR.length + totalAfter rest n := by
  simp [totalAfter, List.take_succ_cons]

/-- Every continuation call of a paginated run is issued only while the
yielded total is below the (truthy) limit, reuses the cursor the
previous response reported, and carries the limit decremented by the
items yielded so far. -/
theorem SearchIterator.run_continuations (rs : List SearchResponse) :
    ∀ (params : SearchCall) (l total : Nat), 0 < l →
      ∀ (i : Nat) (c : SearchCall),
        (SearchIterator.run rs params (some l) total).1.get? (i + 1) = some c →
        total + totalAfter rs (i + 1) < l ∧
        ∃ r, rs.get? i = some r ∧ ∃ k, r.lastEvaluatedKey = some k ∧
          c = ⟨some (l - (total + totalAfter rs (i + 1))), some k⟩ := by
  induction rs with
  | nil =>
    intro params l total hl i c h
    simp [SearchIterator.run] at h
  | cons r rest ih =>
    intro params l total hl i c h
    obtain ⟨pl, pe⟩ := params
    have htr : pyTruthyNat (some l) = true := by
      simp [pyTruthyNat]
      omega
    by_cases hbr : l ≤ total + r.itemsR.length
    · simp [SearchIterator.run, htr, hbr] at h
    · cases hk : r.lastEvaluatedKey with
      | none => simp [SearchIterator.run, htr, hbr, hk] at h
      | some k =>
        simp only [SearchIterator.run] at h
        rw [hk] at h
        simp only [htr, Option.getD_some, Bool.true_and, if_true] at h
        rw [if_neg (by simpa using hbr)] at h
        simp only [List.get?_cons_succ] at h
        cases i with
        | zero =>
          cases hL : (SearchIterator.run rest
              ⟨some (l - (total + r.itemsR.length)), some k⟩ (some l)
              (total + r.itemsR.length)).1 with
          | nil => rw [hL] at h; simp at h
          | cons c0 tl =>
            rw [hL] at h
            simp only [List.get?_cons_zero, Option.some.injEq] at h
            subst h
            have hc0 := SearchIterator.run_fst_head rest _ _ _ c0 tl hL
            constructor
            · rw [totalAfter_cons_succ]
              simp [totalAfter]
              omega
            · refine ⟨r, rfl, k, hk, ?_⟩
              rw [hc0]
              rw [totalAfter_cons_succ]
              simp [totalAfter]
        | succ j =>
          have := ih ⟨some (l - (total + r.itemsR.length)), some k⟩ l
            (total + r.itemsR.length) hl j c h
          obtain ⟨hlt, r2, hr2, k2, hk2, hc⟩ := this
          have heq : total + totalAfter (r :: rest) (j + 1 + 1)
              = total + r.itemsR.length + totalAfter rest (j + 1) := by
            rw [totalAfter_cons_succ]
            omega
          refine ⟨by omega, r2, by simpa using hr2, k2, hk2, ?_⟩
          rw [hc, heq]

/-- C4 (amended): the paginated iterator yields every item of each round
it issues — so when a round overshoots a caller limit the surplus items
of that round are still yielded — and any continuation call is issued
only while the yielded total is below the limit, carries the cursor the
store reported and the limit decremented by the items already yielded;
the run terminates when no cursor is returned. -/
theorem C4_pagination (rs : List SearchResponse) (l : Nat) (hl : 0 < l) :
    (SearchIterator.iterate rs (some l)).2
      = ((rs.take (SearchIterator.iterate rs (some l)).1.length).map
          fun r => r.itemsR).flatten
    ∧ ∀ (i : Nat) (c : SearchCall),
        (SearchIterator.iterate rs (some l)).1.get? (i + 1) = some c →
        totalAfter rs (i + 1) < l ∧
        ∃ r, rs.get? i = some r ∧ ∃ k, r.lastEvaluatedKey = some k ∧
          c = ⟨some (l - totalAfter rs (i + 1)), some k⟩ := by
  constructor
  · exact SearchIterator.run_yields rs ⟨some l, none⟩ (some l) 0
  · intro i c h
    have := SearchIterator.run_continuations rs ⟨some l, none⟩ l 0 hl i c h
    simpa using this

/-- C4, witness: with limit 5 and a first round of one item carrying
cursor 3, the second call is issued with the cursor and limit 4. -/
theorem C4_pagination_witness :
    totalAfter [⟨[7], some 3⟩, ⟨[8], none⟩] 1 < 5
    ∧ ∃ r, ([⟨[7], some 3⟩, ⟨[8], none⟩] : List SearchResponse).get? 0 = some r
        ∧ ∃ k, r.lastEvaluatedKey = some k
          ∧ (⟨some 4, some 3⟩ : SearchCall)
            = ⟨some (5 - totalAfter [⟨[7], some 3⟩, ⟨[8], none⟩] 1), some k⟩ :=
  (C4_pagination [⟨[7], some 3⟩, ⟨[8], none⟩] 5 (by decide)).2 0
    ⟨some 4, some 3⟩ (by decide)

/-- C4, counterexample: with limit 1, a first round returning two items
yields both items — the iterator does not stop mid-round after the
first item — although it correctly issues no continuation call. -/
theorem C4_counterexample :
    (SearchIterator.iterate [⟨[7, 8], some 5⟩, ⟨[9], none⟩] (some 1)).2 = [7, 8]
    ∧ (SearchIterator.iterate [⟨[7, 8], some 5⟩, ⟨[9], none⟩] (some 1)).2 ≠ [7]
    ∧ (SearchIterator.iterate [⟨[7, 8], some 5⟩, ⟨[9], none⟩] (some 1)).1.length = 1 := by
  refine ⟨rfl, by decide, rfl⟩

/-- C5 (amended): repeated application of the same operator appends to
the left operand's existing child list — the children of
`(a & b) & c` are `a`'s own children when `a` is already an
`AndCondition`, otherwise `[a]`, followed by `b` and `c` (so they are
exactly `[a, b, c]` precisely when `a` is not itself an `AndCondition`);
dually for `|`; and combining with the other operator always wraps in a
new node. -/
theorem C5_flattening (a b c : BaseCondition) :
    BaseCondition.andOp (BaseCondition.andOp a b) c
      = .andCond (a.asAndChildren ++ [b, c])
    ∧ BaseCondition.orOp (BaseCondition.orOp a b) c
      = .orCond (a.asOrChildren ++ [b, c])
    ∧ BaseCondition.orOp (BaseCondition.andOp a b) c
      = .orCond [BaseCondition.andOp a b, c]
    ∧ BaseCondition.andOp (BaseCondition.orOp a b) c
      = .andCond [BaseCondition.orOp a b, c] := by
  refine ⟨?_, ?_, ?_, ?_⟩ <;> cases a <;>
    simp [BaseCondition.andOp, BaseCondition.orOp, BaseCondition.asAndChildren,
      BaseCondition.asOrChildren]

/-- C5, counterexample: with `a := p & q` (itself a fresh two-child
`AndCondition`), `(a & b) & c` has the four children `[p, q, b, c]`,
not the three children `[a, b, c]`. -/
theorem C5_counterexample :
    BaseCondition.andOp
        (BaseCondition.andOp (BaseCondition.andOp condHashEq condRangeEq) condHashGt)
        condRangeBetween
      = .andCond [condHashEq, condRangeEq, condHashGt, condRangeBetween]
    ∧ BaseCondition.andOp
        (BaseCondition.andOp (BaseCondition.andOp condHashEq condRangeEq) condHashGt)
        condRangeBetween
      ≠ .andCond [BaseCondition.andOp condHashEq condRangeEq, condHashGt,
          condRangeBetween] := by
  refine ⟨rfl, fun h => ?_⟩
  have h2 := congrArg (fun x => (BaseCondition.asAndChildren x).length) h
  simp [BaseCondition.asAndChildren, BaseCondition.andOp, condHashEq, condRangeEq,
    condHashGt, condRangeBetween] at h2

/-- C6, counterexample: constructing a `BETWEEN` comparison with a
single operand (operand count 1, fixed arity 2) succeeds and stores the
mismatched operand unchanged — no `ExpressionError` is raised at
construction time. -/
theorem C6_counterexample :
    PrimitiveCondition.init ⟨"age"⟩ .BETWEEN (some (.int 5))
      = { field := ⟨"age"⟩, op := .BETWEEN, value := some (.int 5) }
    ∧ OP.num_args .BETWEEN = 2
    ∧ specOperandCount (some (.int 5)) = 1 :=
  ⟨rfl, rfl, rfl⟩

/-- C6 (amended): construction performs no arity validation — the
condition is built for every operator and operand, storing them
unchanged; a mismatch surfaces, if at all, only when the condition is
rendered: `BETWEEN` with a non-pair operand fails the splatted call
with `TypeError` (not `ExpressionError`), while `EXISTS` with a spurious
operand renders fine, silently ignoring it. -/
theorem C6_no_arity_check (f : SchemaField) (op : OP) (v : Option Value) :
    (PrimitiveCondition.init f op v).op = op
    ∧ (PrimitiveCondition.init f op v).value = v
    ∧ PrimitiveCondition.to_boto_attr (PrimitiveCondition.init ⟨"age"⟩ .BETWEEN (some (.int 5)))
      = .error .typeError
    ∧ PrimitiveCondition.to_boto_attr (PrimitiveCondition.init ⟨"age"⟩ .EXISTS (some (.int 5)))
      = .ok (.call0 .attr "age" "exists") :=
  ⟨rfl, rfl, rfl, rfl⟩

/-- C7 (amended): compiling `{set(name, "X"), add(count, 1), remove(tag)}`
(placeholder counter at its initial value 1) yields one expression with
exactly one SET, one ADD and one REMOVE segment, in that order, whose
value table holds exactly the two distinct placeholders of the SET and
ADD clauses — the REMOVE clause binds no value. -/
theorem C7_compile_roundtrip :
    UpdateBuilder.create updatesScenario 1
      = .ok (("SET name = :val2 ADD count :val3 REMOVE tag",
          [(":val2", .str "X"), (":val3", .int 1)]), 3)
    ∧ (":val2" : String) ≠ ":val3" := by
  exact ⟨rfl, by decide⟩

/-- C7, counterexample: the value table of the compiled scenario holds
two placeholders, not the claimed three. -/
theorem C7_counterexample :
    (UpdateBuilder.create updatesScenario 1).map (fun r => r.1.2.length) = .ok 2
    ∧ (2 : Nat) ≠ 3 :=
  ⟨rfl, by decide⟩

/-- C8 (amended): `Set(field, absent, if_not_exists=false)` compiles to
a REMOVE clause and `Set(field, absent, if_not_exists=true)` to nothing
(neither touches the counter or value table); but `Add(field, 0)` emits
an ADD clause binding 0 and `ListExtend(field, [], append=true)` emits a
SET `list_append` clause binding the empty list, because `is_empty`
treats only `None` and the empty string as empty — only `Add` of an
absent value is a no-op.  A compilation of no-op updates alone yields
the empty expression and the empty value table. -/
theorem C8_empty_value_updates :
    SetUpdate.create nameField none false 1 = .ok (some ⟨.REMOVE, "name", []⟩, 1)
    ∧ SetUpdate.create nameField none true 1 = .ok (none, 1)
    ∧ AddUpdate.create countField none 1 = .ok (none, 1)
    ∧ AddUpdate.create countField (some (.int 0)) 1
      = .ok (some ⟨.ADD, "count :val2", [(":val2", .int 0)]⟩, 2)
    ∧ ListExtendUpdate.create tagsField (some (.list [])) true 1
      = .ok (some ⟨.SET, "tags = list_append(tags, :val2)", [(":val2", .list [])]⟩, 2)
    ∧ UpdateBuilder.create [.setU nameField none true] 5 = .ok (("", []), 5) :=
  ⟨rfl, rfl, rfl, rfl, rfl, rfl⟩

/-- C8, counterexample: `Add(count, 0)` compiles to an ADD clause and
`ListExtend(tags, [], append=true)` compiles to a SET clause — both
claimed no-clause cases do produce clauses and bind a placeholder. -/
theorem C8_counterexample :
    AddUpdate.create countField (some (.int 0)) 1
      = .ok (some ⟨.ADD, "count :val2", [(":val2", .int 0)]⟩, 2)
    ∧ ListExtendUpdate.create tagsField (some (.list [])) true 1
      = .ok (some ⟨.SET, "tags = list_append(tags, :val2)", [(":val2", .list [])]⟩, 2) :=
  ⟨rfl, rfl⟩

/-- C10: `BatchResult()` binds its `success` list to the module-level
default list object, shared by every argument-less construction; after
one bulk operation appends an item to its result's `success`, a second
bulk operation's fresh `BatchResult()` already sees that item — the
lists neither start empty nor are independent. -/
theorem C10_shared_default_lists :
    BatchResult.successValue BatchResult.init
        (BatchResult.appendSuccess BatchResult.init 7 moduleHeap) = [7]
    ∧ BatchResult.successValue BatchResult.init
        (BatchResult.appendSuccess BatchResult.init 7 moduleHeap) ≠ ([] : List Nat) := by
  refine ⟨rfl, by decide⟩

end Dynamongo
